import Mathlib

/-!
Verification of the Aurorae Haven embedded offline server
(`scripts/embedded-server.py`) against its natural-language specification.

The script is a lightweight static-file HTTP server: it changes the working
directory to the script's own directory, registers three MIME-type overrides,
binds a TCP listener on a fixed loopback address, best-effort opens the
default browser, serves requests until interrupted, and reports bind errors
with a non-zero exit status.

The embedding below is shallow: the script's straight-line lifecycle becomes
a pure function `main` from an environment record (which carries the outcome
of each effectful step: the chdir call, the bind call, the browser call, and
what eventually terminates the serve loop) to a run-result record (printed
lines, bind bookkeeping, and the process exit status).  Request handling is
a pure function from a path and a file-system snapshot to a response record.
-/

namespace EmbeddedServer

/-! ## Configuration constants (embedded-server.py lines 19-25) -/

def PORT : Nat := 8765

def HOST : String := "127.0.0.1"

/-- errno constant the script hardcodes for address-already-in-use on macOS. -/
def EADDRINUSE_MACOS : Nat := 48

/-- errno constant the script hardcodes for address-already-in-use on Linux. -/
def EADDRINUSE_LINUX : Nat := 98

/-! ## MIME table (embedded-server.py lines 27-30)

The process-wide `mimetypes` table is a map from file extension to
content-type string.  `mimetypes.add_type(ty, ext)` adds one entry,
shadowing any previous mapping for that extension. -/

abbrev MimeTable := String → Option String

/-- `mimetypes.add_type(ty, ext)`: extend the table with one override. -/
def add_type (table : MimeTable) (ty ext : String) : MimeTable :=
  fun e => if e = ext then some ty else table e

/-- The three `mimetypes.add_type` calls executed once at module load
(embedded-server.py lines 28-30), applied to an arbitrary platform
default table. -/
def registerMimeTypes (base : MimeTable) : MimeTable :=
  add_type
    (add_type
      (add_type base "application/javascript" ".js")
      "application/javascript" ".mjs")
    "application/manifest+json" ".webmanifest"

/-! ## Path extension extraction

Model of `posixpath.splitext` as used by the static-file handler when it
resolves a content type: the extension is the suffix starting at the last
dot, provided that dot lies after the last slash and the last path
component does not consist solely of leading dots before it. -/

/-- Index of the last occurrence of `c` in `cs`, or `-1` when absent
(mirrors Python `str.rfind`). -/
def rfind (cs : List Char) (c : Char) : Int :=
  match cs with
  | [] => -1
  | a :: rest =>
    let r := rfind rest c
    if 0 ≤ r then r + 1 else if a = c then 0 else -1

/-- The dotted extension of a path, following `posixpath.splitext`:
empty when there is no dot after the last slash, or when every character
of the final component before the last dot is itself a dot. -/
def pathExt (p : String) : String :=
  let cs := p.data
  let sepIndex := rfind cs '/'
  let dotIndex := rfind cs '.'
  if sepIndex < dotIndex then
    let stem := (cs.take dotIndex.toNat).drop (sepIndex + 1).toNat
    if stem.all (fun c => c = '.') then "" else String.mk (cs.drop dotIndex.toNat)
  else ""

/-! ## Request handling -/

/-- Modelled from the spec: the underlying static-file handler determines the
content type "via extension lookup in the MIME table, defaulting to a generic
binary type when the extension is unrecognized" (the handler itself is
standard-library code, not part of this repository). -/
def guess_type (table : MimeTable) (path : String) : String :=
  match table (pathExt path) with
  | some ty => ty
  | none => "application/octet-stream"

/-- Content type of a response for `path`, as resolved through the table
after the three startup overrides have been registered over the platform
default table `base`. -/
def responseContentType (base : MimeTable) (path : String) : String :=
  guess_type (registerMimeTypes base) path

structure HttpResponse where
  status : Nat
  headers : List (String × String)
deriving DecidableEq

/-- `CustomHTTPRequestHandler.end_headers` (embedded-server.py lines 35-38):
before the header section is finalized, append the cache-control header to
whatever headers the underlying handler has already set. -/
def end_headers (sent : List (String × String)) : List (String × String) :=
  sent ++ [("Cache-Control", "public, max-age=0")]

/-- Modelled from the spec: the underlying static-file handler serves files
from the root directory (200 with Content-Type and Content-Length for an
existing file, 404 otherwise); every response it produces is finalized
through the handler's `end_headers`, which here is the overridden
`CustomHTTPRequestHandler.end_headers`.  `fs` is a snapshot of the served
directory tree, mapping a request path to a file body when one exists. -/
def serveRequest (base : MimeTable) (fs : String → Option String)
    (path : String) : HttpResponse :=
  match fs path with
  | some body =>
    { status := 200
      headers := end_headers
        [("Content-Type", responseContentType base path),
         ("Content-Length", toString body.length)] }
  | none =>
    { status := 404
      headers := end_headers [("Content-Type", "text/html;charset=utf-8")] }

/-! ## Server lifecycle (embedded-server.py `main`, lines 44-84) -/

/-- Outcome of the `socketserver.TCPServer((HOST, PORT), ...)` call:
either the bind succeeds, or it raises `OSError` carrying a numeric
`errno`, a semantic classification (is this an address-in-use condition?),
and a message.  The script inspects only the numeric `errno`. -/
inductive BindResult
  | ok : BindResult
  | osError (errno : Nat) (isAddrInUse : Bool) (msg : String) : BindResult
deriving DecidableEq

/-- Outcome of the `webbrowser.open(url)` call: it may succeed, report
failure by returning `False` without raising, or raise an exception. -/
inductive BrowserResult
  | opened : BrowserResult
  | returnedFalse : BrowserResult
  | raised (msg : String) : BrowserResult
deriving DecidableEq

/-- What eventually terminates `httpd.serve_forever()`: the designed path is
a `KeyboardInterrupt`; an `OSError` escaping the serve loop is also caught
by the surrounding handler. -/
inductive ServeOutcome
  | interrupt : ServeOutcome
  | osError (errno : Nat) (isAddrInUse : Bool) (msg : String) : ServeOutcome
deriving DecidableEq

/-- How the process ends: a clean `sys.exit(n)`, or an exception that
propagates out of `main` uncaught. -/
inductive ExitStatus
  | code (n : Nat) : ExitStatus
  | uncaught (msg : String) : ExitStatus
deriving DecidableEq

/-- The environment of one run: the external inputs the process could in
principle observe (`argv`, environment variables) and the outcome of each
effectful step the script performs. -/
structure Env where
  argv : List String
  envVars : String → Option String
  scriptDir : String
  chdirError : Option String
  bind : BindResult
  browser : BrowserResult
  serveOutcome : ServeOutcome

/-- Observable result of one run of the script. -/
structure RunResult where
  output : List String
  cwdAtBind : Option String
  bindRequested : Option (String × Nat)
  bindAttempts : Nat
  served : Bool
  socketClosed : Bool
  exit : ExitStatus

def url : String := "http://" ++ HOST ++ ":" ++ toString PORT

/-- The separator line printed by the banner: 60 repetitions of the
equals-sign character, mirroring the string-repetition expression in the
script. -/
def sepLine : String :=
  String.mk (List.replicate 60 '=')

def bannerLines : List String :=
  [sepLine, "🌌 Aurorae Haven - Offline Server (Python)", sepLine, ""]

def runningLines : List String :=
  ["✓ Server running at: " ++ url,
   "✓ Opening in your default browser...",
   "\nPress Ctrl+C to stop the server\n"]

def browserFailLines : List String :=
  ["Failed to open browser automatically.",
   "Please open your browser and navigate to: " ++ url]

def portInUseLines : List String :=
  ["\n❌ Port " ++ toString PORT ++ " is already in use.",
   "Please close the other application or use a different port.\n"]

def shutdownLines : List String :=
  ["\n\n👋 Shutting down server...", "✓ Server stopped"]

/-- The `except OSError` handler (embedded-server.py lines 73-80): if the
numeric errno is one of the two hardcoded address-in-use constants, print
the port-specific diagnostic; otherwise print the raw error; exit 1 either
way. -/
def handleOSError (errno : Nat) (msg : String) : List String × ExitStatus :=
  if errno = EADDRINUSE_MACOS ∨ errno = EADDRINUSE_LINUX then
    (portInUseLines, ExitStatus.code 1)
  else
    (["Server error: " ++ msg], ExitStatus.code 1)

/-- The script's `main` (embedded-server.py lines 44-84).  The chdir call
precedes the try block, so a chdir failure propagates uncaught.  Inside the
try block: bind, announce, best-effort browser launch (only a raised
exception triggers the fallback message), then `serve_forever` until the
serve outcome occurs; `OSError` and `KeyboardInterrupt` are the two handled
exception classes.  The `with` statement closes the listening socket on
every exit path out of the block. -/
def main (env : Env) : RunResult :=
  match env.chdirError with
  | some e =>
    { output := []
      cwdAtBind := none
      bindRequested := none
      bindAttempts := 0
      served := false
      socketClosed := true
      exit := ExitStatus.uncaught ("OSError: " ++ e) }
  | none =>
    match env.bind with
    | BindResult.osError errno _ msg =>
      let r := handleOSError errno msg
      { output := bannerLines ++ r.1
        cwdAtBind := some env.scriptDir
        bindRequested := some (HOST, PORT)
        bindAttempts := 1
        served := false
        socketClosed := true
        exit := r.2 }
    | BindResult.ok =>
      let browserMsgs :=
        match env.browser with
        | BrowserResult.raised _ => browserFailLines
        | _ => []
      match env.serveOutcome with
      | ServeOutcome.interrupt =>
        { output := bannerLines ++ runningLines ++ browserMsgs ++ shutdownLines
          cwdAtBind := some env.scriptDir
          bindRequested := some (HOST, PORT)
          bindAttempts := 1
          served := true
          socketClosed := true
          exit := ExitStatus.code 0 }
      | ServeOutcome.osError errno _ msg =>
        let r := handleOSError errno msg
        { output := bannerLines ++ runningLines ++ browserMsgs ++ r.1
          cwdAtBind := some env.scriptDir
          bindRequested := some (HOST, PORT)
          bindAttempts := 1
          served := true
          socketClosed := true
          exit := r.2 }

/-- A baseline environment: successful chdir and bind, browser opens,
server runs until interrupted. -/
def envDefault : Env :=
  { argv := []
    envVars := fun _ => none
    scriptDir := "/opt/aurorae-haven/scripts"
    chdirError := none
    bind := BindResult.ok
    browser := BrowserResult.opened
    serveOutcome := ServeOutcome.interrupt }

/-- A run on a platform where the address-in-use condition carries a numeric
errno different from the two hardcoded constants (Windows reports
WSAEADDRINUSE as 10048): the bind failure is semantically classified as
address-in-use, but its errno is neither 48 nor 98. -/
def envWinAddrInUse : Env :=
  { envDefault with
    bind := BindResult.osError 10048 true
      "[WinError 10048] Only one usage of each socket address is normally permitted" }

/-- A run in which the initial `os.chdir` raises `OSError`. -/
def envChdirFail : Env :=
  { envDefault with chdirError := some "[Errno 2] No such file or directory" }

/-- A run in which `webbrowser.open` raises an exception. -/
def envBrowserRaise : Env :=
  { envDefault with browser := BrowserResult.raised "could not locate runnable browser" }

/-- A run in which `webbrowser.open` reports failure by returning `False`
without raising. -/
def envBrowserFalse : Env :=
  { envDefault with browser := BrowserResult.returnedFalse }

/-- A run in which the bind fails with a non-address-in-use error. -/
def envBindDenied : Env :=
  { envDefault with bind := BindResult.osError 13 false "[Errno 13] Permission denied" }

/-- A run with command-line arguments and environment variables set, to
compare against the baseline run: the script reads neither. -/
def envArgs : Env :=
  { envDefault with
    argv := ["--port", "9999", "--host", "0.0.0.0"]
    envVars := fun v => if v = "PORT" then some "1234" else none }

/-! ## Helper lemmas -/

theorem handleOSError_exit (errno : Nat) (msg : String) :
    (handleOSError errno msg).2 = ExitStatus.code 1 := by
  unfold handleOSError
  split <;> rfl

theorem exit_zero_only_interrupt (e : Env)
    (he : (main e).exit = ExitStatus.code 0) :
    e.serveOutcome = ServeOutcome.interrupt := by
  cases hso : e.serveOutcome with
  | interrupt => rfl
  | osError errno isA m =>
    exfalso
    cases hc : e.chdirError with
    | some s => simp [main, hc] at he
    | none =>
      cases hb : e.bind with
      | osError e2 a2 m2 =>
        rw [show (main e).exit = (handleOSError e2 m2).2 by
          simp [main, hc, hb], handleOSError_exit] at he
        exact absurd he (by decide)
      | ok =>
        rw [show (main e).exit = (handleOSError errno m).2 by
          simp [main, hc, hb, hso], handleOSError_exit] at he
        exact absurd he (by decide)

/-! ## Claims -/

/-- C1: the claim requires every address-in-use bind failure to produce the
port-naming diagnostic, detected by semantic error classification.  The code
instead matches the numeric errno against the two hardcoded constants 48 and
98, so a bind failure that is semantically address-in-use but carries the
Windows errno 10048 falls through to the generic branch: the port-naming
diagnostic is never printed (the process does still exit with status 1
without serving). -/
theorem C1_numeric_errno_misses_addrinuse :
    envWinAddrInUse.bind
      = BindResult.osError 10048 true
        "[WinError 10048] Only one usage of each socket address is normally permitted"
    ∧ ("\n❌ Port 8765 is already in use." ∉ (main envWinAddrInUse).output)
    ∧ ("Server error: [WinError 10048] Only one usage of each socket address is normally permitted"
        ∈ (main envWinAddrInUse).output)
    ∧ (main envWinAddrInUse).exit = ExitStatus.code 1
    ∧ (main envWinAddrInUse).served = false := by
  refine ⟨rfl, ?_, ?_, rfl, rfl⟩ <;> decide

/-- C2: every HTTP response produced by the server, for any requested path
and any outcome, carries the header `Cache-Control: public, max-age=0` in
addition to the headers set by the underlying static-file handler. -/
theorem C2_cache_header_every_response (base : MimeTable)
    (fs : String → Option String) (path : String) :
    ("Cache-Control", "public, max-age=0") ∈ (serveRequest base fs path).headers := by
  unfold serveRequest
  cases fs path <;> simp [end_headers]

/-- C3: for every requested path whose extension is `.js` or `.mjs` the
response content type is `application/javascript`, and for every path whose
extension is `.webmanifest` it is `application/manifest+json`, for any
platform default table — the three overrides registered once at startup by
`registerMimeTypes` take precedence. -/
theorem C3_mime_overrides_apply (base : MimeTable) (path : String) :
    ((pathExt path = ".js" ∨ pathExt path = ".mjs") →
      responseContentType base path = "application/javascript")
    ∧ (pathExt path = ".webmanifest" →
      responseContentType base path = "application/manifest+json") := by
  constructor
  · rintro (h | h) <;>
      simp [responseContentType, guess_type, registerMimeTypes, add_type, h]
  · intro h
    simp [responseContentType, guess_type, registerMimeTypes, add_type, h]

/-- Witness for C3 at the concrete paths `app.js` and `site.webmanifest`
over the empty platform default table. -/
theorem C3_mime_overrides_apply_witness :
    responseContentType (fun _ => none) "app.js" = "application/javascript"
    ∧ responseContentType (fun _ => none) "site.webmanifest"
        = "application/manifest+json" :=
  ⟨(C3_mime_overrides_apply (fun _ => none) "app.js").1 (Or.inl rfl),
   (C3_mime_overrides_apply (fun _ => none) "site.webmanifest").2 rfl⟩

/-- C4: whenever the browser-open call raises, the failure is caught
locally, the fallback warning naming the server URL is printed, and the
run still reaches the serve loop. -/
theorem C4_browser_failure_nonfatal (env : Env) (msg : String)
    (hc : env.chdirError = none) (hb : env.bind = BindResult.ok)
    (hw : env.browser = BrowserResult.raised msg) :
    (main env).served = true
    ∧ "Failed to open browser automatically." ∈ (main env).output
    ∧ ("Please open your browser and navigate to: " ++ url) ∈ (main env).output := by
  cases hs : env.serveOutcome with
  | interrupt =>
    refine ⟨by simp [main, hc, hb, hw, hs], ?_, ?_⟩ <;>
      simp [main, hc, hb, hw, hs] <;> decide
  | osError errno isA m =>
    refine ⟨by simp [main, hc, hb, hw, hs], ?_, ?_⟩ <;>
    · rw [show (main env).output
          = bannerLines ++ runningLines ++ browserFailLines ++ (handleOSError errno m).1 by
        simp [main, hc, hb, hw, hs]]
      apply List.mem_append_left
      decide

/-- Witness for C4 at a concrete run whose browser call raises. -/
theorem C4_browser_failure_nonfatal_witness :
    (main envBrowserRaise).served = true
    ∧ "Failed to open browser automatically." ∈ (main envBrowserRaise).output
    ∧ ("Please open your browser and navigate to: " ++ url)
        ∈ (main envBrowserRaise).output :=
  C4_browser_failure_nonfatal envBrowserRaise "could not locate runnable browser"
    rfl rfl rfl

/-- C5: when the running server receives the interrupt, the listening socket
is closed, the shutdown confirmation is printed, and the process exits with
status exactly 0; moreover this is the only path producing exit status 0 —
any run that exits 0 had its serve loop terminated by the interrupt. -/
theorem C5_interrupt_clean_shutdown (env : Env)
    (hc : env.chdirError = none) (hb : env.bind = BindResult.ok)
    (hs : env.serveOutcome = ServeOutcome.interrupt) :
    (main env).socketClosed = true
    ∧ "\n\n👋 Shutting down server..." ∈ (main env).output
    ∧ "✓ Server stopped" ∈ (main env).output
    ∧ (main env).exit = ExitStatus.code 0
    ∧ ∀ e : Env, (main e).exit = ExitStatus.code 0 →
        e.serveOutcome = ServeOutcome.interrupt := by
  refine ⟨?_, ?_, ?_, ?_, exit_zero_only_interrupt⟩ <;>
    cases hbr : env.browser <;> simp [main, hc, hb, hs, hbr] <;> decide

/-- Witness for C5 at the baseline run. -/
theorem C5_interrupt_clean_shutdown_witness :
    (main envDefault).socketClosed = true
    ∧ (main envDefault).exit = ExitStatus.code 0 :=
  ⟨(C5_interrupt_clean_shutdown envDefault rfl rfl rfl).1,
   (C5_interrupt_clean_shutdown envDefault rfl rfl rfl).2.2.2.1⟩

/-- C6: every bind-time OS error whose errno is not one of the two
constants the code classifies as address-in-use leads to the underlying
error message being printed and exit status 1, with the bind attempted
exactly once (no retry) and no request served. -/
theorem C6_other_bind_error_exits_one (env : Env)
    (errno : Nat) (isA : Bool) (msg : String)
    (hc : env.chdirError = none)
    (hb : env.bind = BindResult.osError errno isA msg)
    (h48 : errno ≠ EADDRINUSE_MACOS) (h98 : errno ≠ EADDRINUSE_LINUX) :
    ("Server error: " ++ msg) ∈ (main env).output
    ∧ (main env).exit = ExitStatus.code 1
    ∧ (main env).served = false
    ∧ (main env).bindAttempts = 1 := by
  refine ⟨?_, ?_, ?_, ?_⟩ <;>
    simp [main, hc, hb, handleOSError, h48, h98, bannerLines]

/-- Witness for C6 at a concrete permission-denied bind failure. -/
theorem C6_other_bind_error_exits_one_witness :
    ("Server error: " ++ "[Errno 13] Permission denied") ∈ (main envBindDenied).output
    ∧ (main envBindDenied).exit = ExitStatus.code 1
    ∧ (main envBindDenied).served = false
    ∧ (main envBindDenied).bindAttempts = 1 :=
  C6_other_bind_error_exits_one envBindDenied 13 false "[Errno 13] Permission denied"
    rfl rfl (by decide) (by decide)

/-- C7 counterexample: the claim says every fatal error in every phase is
caught at top level and converted to a message plus an exit code.  But the
`os.chdir` call of the initialization phase precedes the try block: when it
raises, the run ends with an uncaught exception and nothing printed. -/
theorem C7_chdir_error_uncaught :
    (main envChdirFail).exit
      = ExitStatus.uncaught "OSError: [Errno 2] No such file or directory"
    ∧ (main envChdirFail).output = []
    ∧ ∀ n : Nat, (main envChdirFail).exit ≠ ExitStatus.code n := by
  refine ⟨rfl, rfl, ?_⟩
  intro n h
  exact ExitStatus.noConfusion h

/-- C7 amended: every fatal error arising inside the try block — bind
failures and errors terminating the serve loop — is caught and converted to
a printed message plus an exit code; only a failure of the initialization
chdir, which precedes the try block, escapes uncaught. -/
theorem C7_errors_inside_try_all_caught (env : Env)
    (hc : env.chdirError = none) :
    ∃ n : Nat, (main env).exit = ExitStatus.code n := by
  cases hb : env.bind with
  | osError errno isA m =>
    refine ⟨1, ?_⟩
    rw [show (main env).exit = (handleOSError errno m).2 by simp [main, hc, hb]]
    exact handleOSError_exit errno m
  | ok =>
    cases hs : env.serveOutcome with
    | interrupt => exact ⟨0, by cases hbr : env.browser <;> simp [main, hc, hb, hs, hbr]⟩
    | osError errno isA m =>
      refine ⟨1, ?_⟩
      rw [show (main env).exit = (handleOSError errno m).2 by
        cases hbr : env.browser <;> simp [main, hc, hb, hs, hbr]]
      exact handleOSError_exit errno m

/-- Witness for the amended C7 at the baseline run. -/
theorem C7_errors_inside_try_all_caught_witness :
    ∃ n : Nat, (main envDefault).exit = ExitStatus.code n :=
  C7_errors_inside_try_all_caught envDefault rfl

/-- C8: whenever initialization succeeds, the working directory at the
moment the bind is attempted is the directory containing the running
script, for every run. -/
theorem C8_cwd_is_script_dir_at_bind (env : Env)
    (hc : env.chdirError = none) :
    (main env).cwdAtBind = some env.scriptDir := by
  cases hb : env.bind with
  | osError errno isA m => simp [main, hc, hb]
  | ok =>
    cases hs : env.serveOutcome <;> cases hbr : env.browser <;>
      simp [main, hc, hb, hs, hbr]

/-- Witness for C8 at the baseline run. -/
theorem C8_cwd_is_script_dir_at_bind_witness :
    (main envDefault).cwdAtBind = some envDefault.scriptDir :=
  C8_cwd_is_script_dir_at_bind envDefault rfl

/-- C9: the listener address requested at bind time is the fixed constant
`127.0.0.1:8765` in every run, and coincides across any two runs regardless
of their command-line arguments or environment variables — the listener
configuration is not influenced by any external input. -/
theorem C9_fixed_listener_address (e1 e2 : Env)
    (h1 : e1.chdirError = none) (h2 : e2.chdirError = none) :
    (main e1).bindRequested = some (HOST, PORT)
    ∧ (main e1).bindRequested = (main e2).bindRequested := by
  have key : ∀ e : Env, e.chdirError = none →
      (main e).bindRequested = some (HOST, PORT) := by
    intro e hc
    cases hb : e.bind with
    | osError errno isA m => simp [main, hc, hb]
    | ok =>
      cases hs : e.serveOutcome <;> cases hbr : e.browser <;>
        simp [main, hc, hb, hs, hbr]
  exact ⟨key e1 h1, (key e1 h1).trans (key e2 h2).symm⟩

/-- Witness for C9: a run given command-line arguments and environment
variables requests the same fixed address as the baseline run. -/
theorem C9_fixed_listener_address_witness :
    (main envArgs).bindRequested = some (HOST, PORT)
    ∧ (main envArgs).bindRequested = (main envDefault).bindRequested :=
  C9_fixed_listener_address envArgs envDefault rfl rfl

/-- C10: when the browser-open call reports failure by returning `False`
without raising, no fallback warning is printed — the output of an
interrupt-terminated run is exactly banner, announcement and shutdown
lines — and the run still reaches the serve loop. -/
theorem C10_browser_false_silent (env : Env)
    (hc : env.chdirError = none) (hb : env.bind = BindResult.ok)
    (hw : env.browser = BrowserResult.returnedFalse)
    (hs : env.serveOutcome = ServeOutcome.interrupt) :
    (main env).served = true
    ∧ (main env).output = bannerLines ++ runningLines ++ shutdownLines
    ∧ "Failed to open browser automatically." ∉ (main env).output
    ∧ ("Please open your browser and navigate to: " ++ url) ∉ (main env).output := by
  refine ⟨?_, ?_, ?_, ?_⟩ <;> simp [main, hc, hb, hw, hs] <;> decide

/-- Witness for C10 at a concrete run whose browser call returns `False`. -/
theorem C10_browser_false_silent_witness :
    (main envBrowserFalse).served = true
    ∧ "Failed to open browser automatically." ∉ (main envBrowserFalse).output :=
  ⟨(C10_browser_false_silent envBrowserFalse rfl rfl rfl rfl).1,
   (C10_browser_false_silent envBrowserFalse rfl rfl rfl rfl).2.2.1⟩

end EmbeddedServer
